import Mathlib

/-
  Verification development for the remote-database client of prolink-go
  (src/remotedb.go). The Go source is shallowly embedded: network I/O is
  modelled by explicit scripts of read results and write outcomes threaded
  through the functions, machine integers are Nat with an explicit modulus
  where the Go code can overflow, and a Go runtime panic (nil map entry
  dereference, send on a closed channel) is a distinguished outcome value.
-/

set_option autoImplicit false

namespace Prolink

-- ---------------------------------------------------------------------------
-- Basic protocol data (src/remotedb.go plus types living outside src)
-- ---------------------------------------------------------------------------

/-- Modelled from the spec: the storage slot enumeration (USB, SD, removable
CD media, rekordbox); the concrete tag values are defined outside src, only
the removable-media distinction matters here. -/
inductive TrackSlot
  | empty
  | cd
  | sd
  | usb
  | rekordbox
deriving DecidableEq, Repr

/-- The CD slot constant used by GetTrack (remotedb.go line 212). -/
def TrackSlotCD : TrackSlot := TrackSlot.cd

/-- Modelled from the spec: device-type classification; only membership in
the allowed set (rekordbox and CDJ act as database servers) matters. -/
inductive DeviceType
  | cdj
  | rb
  | djm
  | other
deriving DecidableEq, Repr

/-- allowedDevices (remotedb.go lines 23-26): device types that act as a
remote DB server; the Go map is used only for key membership. -/
def allowedDevices : List DeviceType := [DeviceType.rb, DeviceType.cdj]

/-- Modelled from the spec: a device record with identity, address and type
(the Device structure is defined outside src). The address is kept as a
string since only formatting into host:port is observable here. -/
structure Device where
  ID : Nat
  devType : DeviceType
  IP : String
deriving DecidableEq, Repr

-- ---------------------------------------------------------------------------
-- Port resolver (getRemoteDBServerAddr, remotedb.go lines 30-69)
-- ---------------------------------------------------------------------------

/-- rbDBServerQueryPort (remotedb.go line 30): the fixed well-known port. -/
def rbDBServerQueryPort : Nat := 12523

/-- Byte values of an ASCII string (Go []byte conversion; every character
used here is below 128 so UTF-8 and ASCII agree). -/
def asciiBytes (s : String) : List Nat := s.data.map Char.toNat

/-- The three parts joined into the discovery query packet
(remotedb.go lines 44-50). -/
def queryPacketParts : List (List Nat) :=
  [[0x00, 0x00, 0x00, 0x0f], asciiBytes "RemoteDBServer", [0x00]]

/-- bytes.Join of the parts with an empty separator (remotedb.go line 50). -/
def queryPacket : List Nat := queryPacketParts.flatten

/-- Big-endian 4-byte encoding of a 32-bit value (claim-side description of
the leading length field). -/
def bigEndian4 (n : Nat) : List Nat :=
  [n / 2 ^ 24 % 256, n / 2 ^ 16 % 256, n / 2 ^ 8 % 256, n % 256]

/-- Big-endian decoding of two bytes, binary.BigEndian.Uint16
(remotedb.go line 66). -/
def bigEndianUint16 (b0 b1 : Nat) : Nat := b0 * 256 + b1

/-- Outcome script for the one-shot resolver exchange: whether the dial
succeeds, whether the write succeeds, and the two bytes produced by the
read (none when the read errors). -/
structure ResolverScript where
  dialOk : Bool
  writeOk : Bool
  readBytes : Option (Nat × Nat)
deriving DecidableEq, Repr

/-- Observable trace of one resolver call: the address dialed, the bytes
handed to the write (empty when the dial failed), and the result, where
error stands for the wrapped transport error the Go code returns. -/
structure ResolverTrace where
  dialedAddr : String
  wrote : List Nat
  result : Option String
deriving DecidableEq, Repr

/-- getRemoteDBServerAddr (remotedb.go lines 34-69): dial the fixed port,
send the discovery packet, read two bytes, decode a big-endian port and
format address:port; any failing step aborts with an error. -/
def getRemoteDBServerAddr (deviceIP : String) (s : ResolverScript) : ResolverTrace :=
  let addr := deviceIP ++ ":" ++ toString rbDBServerQueryPort
  if ¬ s.dialOk then
    { dialedAddr := addr, wrote := [], result := none }
  else if ¬ s.writeOk then
    { dialedAddr := addr, wrote := queryPacket, result := none }
  else
    match s.readBytes with
    | none => { dialedAddr := addr, wrote := queryPacket, result := none }
    | some (b0, b1) =>
        { dialedAddr := addr
          wrote := queryPacket
          result := some (deviceIP ++ ":" ++ toString (bigEndianUint16 b0 b1)) }

-- ---------------------------------------------------------------------------
-- Close / disconnect channel (deviceConnection.Close, remotedb.go 153-163)
-- ---------------------------------------------------------------------------

/-- State of the buffered disconnect channel, make(chan bool, 1)
(remotedb.go line 133): number of buffered values and whether close has
been called on it. -/
structure GoChan where
  buffered : Nat
  closed : Bool
deriving DecidableEq, Repr

/-- Capacity of the disconnect channel. -/
def disconnectChanCap : Nat := 1

inductive ChanSendResult
  | delivered
  | blocked
  | panicked
deriving DecidableEq, Repr

/-- Go channel send semantics with no receiver waiting: sending on a closed
channel panics, sending on a full buffer blocks, otherwise the value is
buffered. -/
def chanSend (ch : GoChan) : ChanSendResult × GoChan :=
  if ch.closed then (ChanSendResult.panicked, ch)
  else if ch.buffered < disconnectChanCap then
    (ChanSendResult.delivered, { ch with buffered := ch.buffered + 1 })
  else (ChanSendResult.blocked, ch)

/-- Go close on a channel. -/
def chanClose (ch : GoChan) : GoChan := { ch with closed := true }

/-- The lifecycle fields of deviceConnection touched by Close: the
disconnect channel (none before ensureConnect allocates it) and whether a
socket is currently held. -/
structure DCLifecycle where
  disconnect : Option GoChan
  connOpen : Bool
deriving DecidableEq, Repr

inductive CloseOutcome
  | ok
  | blocked
  | panicked
deriving DecidableEq, Repr

/-- deviceConnection.Close (remotedb.go lines 153-163): when the disconnect
channel exists, send true on it and then close it; afterwards, when a
socket is open, close it and clear it. The channel field itself is never
cleared. A blocked or panicking send aborts the call with that outcome. -/
def dcClose (dc : DCLifecycle) : CloseOutcome × DCLifecycle :=
  match dc.disconnect with
  | none => (CloseOutcome.ok, { dc with connOpen := false })
  | some ch =>
      match chanSend ch with
      | (ChanSendResult.panicked, _) => (CloseOutcome.panicked, dc)
      | (ChanSendResult.blocked, _) => (CloseOutcome.blocked, dc)
      | (ChanSendResult.delivered, ch1) =>
          (CloseOutcome.ok,
            { disconnect := some (chanClose ch1), connOpen := false })

/-- The lifecycle state right after Open has started ensureConnect
(remotedb.go line 133): a fresh empty disconnect channel, and a socket in
the connected case. -/
def dcAfterOpen : DCLifecycle :=
  { disconnect := some { buffered := 0, closed := false }, connOpen := true }

-- ---------------------------------------------------------------------------
-- Messages, packets and the per-connection query state
-- ---------------------------------------------------------------------------

/-- Modelled from the spec: the opaque message-type value of a query
response (the constant is defined in the codec outside src; only its
distinctness from the menu-item type matters). -/
def msgTypeResponse : Nat := 0x4000

/-- Modelled from the spec: the opaque message-type value of a streamed
menu-item entry. -/
def msgTypeMenuItem : Nat := 0x4101

-- Modelled from the spec: the opaque item-type tags under which decoded
-- menu entries are filed (title, artist, album, label, genre, comment,
-- key, duration, path). Values are placeholders; only distinctness is used.
def itemTypePath : Nat := 0x00
def itemTypeAlbum : Nat := 0x02
def itemTypeTitle : Nat := 0x04
def itemTypeGenre : Nat := 0x06
def itemTypeArtist : Nat := 0x07
def itemTypeKey : Nat := 0x0f
def itemTypeLabel : Nat := 0x17
def itemTypeComment : Nat := 0x25
def itemTypeDuration : Nat := 0x0b

/-- Modelled from the spec: a decoded menu item, an item-type tag plus its
typed payload (numeric value, text value, embedded artwork identifier). -/
structure menuItem where
  itemType : Nat
  numVal : Nat
  textVal : String
  artworkID : Nat
deriving DecidableEq, Repr

/-- The kinds of request packet built in src (metadataRequestPacket,
renderRequestPacket, trackInfoRequestPacket, requestArtwork). -/
inductive PacketKind
  | metadataRequest
  | renderRequest
  | trackInfoRequest
  | artworkRequest
deriving DecidableEq, Repr

/-- Modelled from the spec: render-type constants for the render request;
the default zero value and the renderSystem value used by the path query. -/
def renderDefault : Nat := 0
def renderSystem : Nat := 1

/-- A request packet with the fields the src constructors populate; unset
Go struct fields keep their zero values. The transaction identifier is
stamped by sendMessage. -/
structure Packet where
  kind : PacketKind
  deviceID : Nat := 0
  slot : TrackSlot := TrackSlot.empty
  trackID : Nat := 0
  artworkID : Nat := 0
  renderType : Nat := renderDefault
  offset : Nat := 0
  limit : Nat := 0
  transactionID : Nat := 0
deriving DecidableEq, Repr

/-- setTransactionID (the messagePacket interface): stamp the packet with
the given transaction counter value. -/
def Packet.setTransactionID (p : Packet) (t : Nat) : Packet :=
  { p with transactionID := t }

/-- Modelled from the spec: a decoded framed message as the codec outside
src delivers it. It carries its message type, the declared item count the
setup response holds in argument 1, the decoded menu item for menu-item
messages, and the binary blob an artwork response holds in argument 3. -/
structure Message where
  messageType : Nat
  declaredCount : Nat := 0
  item : menuItem := { itemType := 0, numVal := 0, textVal := "", artworkID := 0 }
  binary : List Nat := []
deriving DecidableEq, Repr

/-- Modelled from the spec: makeMenuItem decodes a menu-item message into
its MenuItem value; the byte-level decoding lives outside src, so the
message model already carries the decoded item. -/
def makeMenuItem (m : Message) : menuItem := m.item

inductive NetErr
  | eof
  | writeFailed
  | readFailed
  | protocolError
deriving DecidableEq, Repr

/-- A scripted result of one readMessagePacket call. -/
inductive ReadResult
  | ok (m : Message)
  | fail (e : NetErr)
deriving DecidableEq, Repr

/-- The socket of one device connection: the script of incoming read
results, the script of write outcomes (true = the write succeeds; an
exhausted script means every further write succeeds), and the log of
packets successfully written. -/
structure Sock where
  incoming : List ReadResult
  writeScript : List Bool
  sent : List Packet
deriving DecidableEq, Repr

/-- uint32 modulus for the transaction counter (txCount is a Go uint32). -/
def uint32Mod : Nat := 4294967296

/-- The query-relevant state of a connected deviceConnection: its
transaction counter and its socket. -/
structure QState where
  txCount : Nat
  sock : Sock
deriving DecidableEq, Repr

/-- readMessagePacket on an open connection: consume the next scripted
read result; an exhausted stream reads as end-of-stream. -/
def readMessagePacket (st : QState) : ReadResult × QState :=
  match st.sock.incoming with
  | [] => (ReadResult.fail NetErr.eof, st)
  | r :: rest => (r, { st with sock := { st.sock with incoming := rest } })

inductive SendResult
  | sent
  | fail (e : NetErr)
deriving DecidableEq, Repr

/-- sendMessage (remotedb.go lines 393-404): stamp the packet with the
current transaction counter, write it, and only when the write succeeds
increment the uint32 counter. -/
def sendMessage (st : QState) (m : Packet) : SendResult × QState :=
  let stamped := m.setTransactionID st.txCount
  match st.sock.writeScript with
  | [] =>
      (SendResult.sent,
        { st with
            txCount := (st.txCount + 1) % uint32Mod
            sock := { st.sock with sent := st.sock.sent ++ [stamped] } })
  | b :: ws =>
      if b then
        (SendResult.sent,
          { st with
              txCount := (st.txCount + 1) % uint32Mod
              sock := { st.sock with writeScript := ws, sent := st.sock.sent ++ [stamped] } })
      else
        (SendResult.fail NetErr.writeFailed,
          { st with sock := { st.sock with writeScript := ws } })

-- ---------------------------------------------------------------------------
-- Menu items mapping (Go map[byte]*menuItem, last write wins)
-- ---------------------------------------------------------------------------

/-- The mapping from item-type tag to menu item, as an association list in
insertion order; lookups take the latest binding, matching Go map
assignment semantics. -/
abbrev menuItems := List (Nat × menuItem)

/-- Go map assignment items[k] = v: a later binding shadows an earlier
one. -/
def menuInsert (m : menuItems) (k : Nat) (v : menuItem) : menuItems :=
  m ++ [(k, v)]

/-- Go map lookup items[k]: the most recent binding for the tag, none when
the tag is absent (a Go map of pointers yields nil there). -/
def menuFind (m : menuItems) (k : Nat) : Option menuItem :=
  (m.reverse.find? (fun p => p.1 == k)).map (fun p => p.2)

/-- Modelled from the spec: menuItems.getText returns the text payload of
the entry under the tag; a missing tag yields the empty string. -/
def menuGetText (m : menuItems) (k : Nat) : String :=
  ((menuFind m k).map (fun it => it.textVal)).getD ""

/-- Modelled from the spec: menuItems.getNum returns the numeric payload of
the entry under the tag; a missing tag yields zero. -/
def menuGetNum (m : menuItems) (k : Nat) : Nat :=
  ((menuFind m k).map (fun it => it.numVal)).getD 0

inductive MenuResult
  | ok (items : menuItems)
  | fail (e : NetErr)
deriving DecidableEq, Repr

/-- The render-phase read loop of getMenuItems (remotedb.go lines 354-366):
read the given number of framed messages, skip any whose type is not
menu item, and file the rest under their item-type tag. -/
def menuReadLoop : QState → Nat → menuItems → MenuResult × QState
  | st, 0, items => (MenuResult.ok items, st)
  | st, n + 1, items =>
      match readMessagePacket st with
      | (ReadResult.fail e, st1) => (MenuResult.fail e, st1)
      | (ReadResult.ok entry, st1) =>
          if entry.messageType ≠ msgTypeMenuItem then
            menuReadLoop st1 n items
          else
            menuReadLoop st1 n
              (menuInsert items (makeMenuItem entry).itemType (makeMenuItem entry))

/-- getMenuItems (remotedb.go lines 331-368): send the setup request, read
one response and require the response message type, send the render
request, then read declared-count + 2 entries (header and footer
included) into the tag-keyed mapping. -/
def getMenuItems (st : QState) (p1 p2 : Packet) : MenuResult × QState :=
  match sendMessage st p1 with
  | (SendResult.fail e, st1) => (MenuResult.fail e, st1)
  | (SendResult.sent, st1) =>
      match readMessagePacket st1 with
      | (ReadResult.fail e, st2) => (MenuResult.fail e, st2)
      | (ReadResult.ok resp, st2) =>
          if resp.messageType ≠ msgTypeResponse then
            (MenuResult.fail NetErr.protocolError, st2)
          else
            match sendMessage st2 p2 with
            | (SendResult.fail e, st3) => (MenuResult.fail e, st3)
            | (SendResult.sent, st3) =>
                menuReadLoop st3 (resp.declaredCount + 2) []

-- ---------------------------------------------------------------------------
-- Track lookup pipeline (remotedb.go lines 166-389)
-- ---------------------------------------------------------------------------

/-- Track (remotedb.go lines 166-179); the duration is kept as a count of
seconds and the added date as a numeric timestamp (never set in src, so it
stays at the zero value). -/
structure Track where
  ID : Nat
  Path : String := ""
  Title : String := ""
  Artist : String := ""
  Album : String := ""
  Label : String := ""
  Genre : String := ""
  Comment : String := ""
  Key : String := ""
  Length : Nat := 0
  DateAdded : Nat := 0
  Artwork : List Nat := []
deriving DecidableEq, Repr

/-- TrackQuery (remotedb.go lines 182-190); artworkID is the transient
field populated by the metadata step. -/
structure TrackQuery where
  TrackID : Nat
  Slot : TrackSlot
  DeviceID : Nat
  artworkID : Nat := 0
deriving DecidableEq, Repr

/-- Result of one sub-query or of executeQuery: a value, a network error,
or a Go runtime panic (nil pointer dereference). -/
inductive QueryResult (α : Type)
  | ok (a : α)
  | fail (e : NetErr)
  | panicked
deriving DecidableEq, Repr

/-- The metadata setup request built in queryTrackMetadata
(remotedb.go lines 265-269). -/
def metadataRequestPacket (localID : Nat) (q : TrackQuery) : Packet :=
  { kind := PacketKind.metadataRequest
    deviceID := localID
    slot := q.Slot
    trackID := q.TrackID }

/-- The metadata render request (remotedb.go lines 271-276); the render
type keeps its zero value. -/
def renderDataPacket (localID : Nat) (q : TrackQuery) : Packet :=
  { kind := PacketKind.renderRequest
    deviceID := localID
    slot := q.Slot
    offset := 0
    limit := 32 }

/-- The path setup request built in queryTrackPath
(remotedb.go lines 307-311). -/
def trackInfoRequestPacket (localID : Nat) (q : TrackQuery) : Packet :=
  { kind := PacketKind.trackInfoRequest
    deviceID := localID
    slot := q.Slot
    trackID := q.TrackID }

/-- The path render request (remotedb.go lines 313-319), with the system
render type. -/
def renderSystemPacket (localID : Nat) (q : TrackQuery) : Packet :=
  { kind := PacketKind.renderRequest
    renderType := renderSystem
    deviceID := localID
    slot := q.Slot
    offset := 0
    limit := 32 }

/-- The artwork request built in getArtwork (remotedb.go lines 373-377). -/
def requestArtworkPacket (localID : Nat) (q : TrackQuery) : Packet :=
  { kind := PacketKind.artworkRequest
    deviceID := localID
    slot := q.Slot
    artworkID := q.artworkID }

/-- queryTrackMetadata (remotedb.go lines 261-300): run the menu query,
then read the artwork identifier off the title entry — a direct map index
plus pointer dereference, which panics when no title entry exists — store
it into the query, and build the sparse track from the tagged entries. -/
def queryTrackMetadata (localID : Nat) (st : QState) (q : TrackQuery) :
    QueryResult Track × QState × TrackQuery :=
  match getMenuItems st (metadataRequestPacket localID q) (renderDataPacket localID q) with
  | (MenuResult.fail e, st1) => (QueryResult.fail e, st1, q)
  | (MenuResult.ok items, st1) =>
      match menuFind items itemTypeTitle with
      | none => (QueryResult.panicked, st1, q)
      | some titleItem =>
          let q1 := { q with artworkID := titleItem.artworkID }
          let track : Track :=
            { ID := q.TrackID
              Title := menuGetText items itemTypeTitle
              Artist := menuGetText items itemTypeArtist
              Album := menuGetText items itemTypeAlbum
              Comment := menuGetText items itemTypeComment
              Key := menuGetText items itemTypeKey
              Genre := menuGetText items itemTypeGenre
              Label := menuGetText items itemTypeLabel
              Length := menuGetNum items itemTypeDuration }
          (QueryResult.ok track, st1, q1)

/-- queryTrackPath (remotedb.go lines 303-327): run the menu query with the
info-for-path setup request and return the text under the path tag. -/
def queryTrackPath (localID : Nat) (st : QState) (q : TrackQuery) :
    QueryResult String × QState :=
  match getMenuItems st (trackInfoRequestPacket localID q) (renderSystemPacket localID q) with
  | (MenuResult.fail e, st1) => (QueryResult.fail e, st1)
  | (MenuResult.ok items, st1) => (QueryResult.ok (menuGetText items itemTypePath), st1)

/-- getArtwork (remotedb.go lines 372-389): send the artwork request —
unconditionally, whatever the artwork identifier — read one response and
return its binary argument. -/
def getArtwork (localID : Nat) (st : QState) (q : TrackQuery) :
    QueryResult (List Nat) × QState :=
  match sendMessage st (requestArtworkPacket localID q) with
  | (SendResult.fail e, st1) => (QueryResult.fail e, st1)
  | (SendResult.sent, st1) =>
      match readMessagePacket st1 with
      | (ReadResult.fail e, st2) => (QueryResult.fail e, st2)
      | (ReadResult.ok resp, st2) => (QueryResult.ok resp.binary, st2)

/-- executeQuery (remotedb.go lines 226-253): metadata, then path, then
artwork, each aborting the lookup on failure; the artwork step runs on the
query as mutated by the metadata step. -/
def executeQuery (localID : Nat) (st : QState) (q : TrackQuery) :
    QueryResult Track × QState :=
  match queryTrackMetadata localID st q with
  | (QueryResult.fail e, st1, _) => (QueryResult.fail e, st1)
  | (QueryResult.panicked, st1, _) => (QueryResult.panicked, st1)
  | (QueryResult.ok track, st1, q1) =>
      match queryTrackPath localID st1 q1 with
      | (QueryResult.fail e, st2) => (QueryResult.fail e, st2)
      | (QueryResult.panicked, st2) => (QueryResult.panicked, st2)
      | (QueryResult.ok path, st2) =>
          match getArtwork localID st2 q1 with
          | (QueryResult.fail e, st3) => (QueryResult.fail e, st3)
          | (QueryResult.panicked, st3) => (QueryResult.panicked, st3)
          | (QueryResult.ok artwork, st3) =>
              (QueryResult.ok { track with Path := path, Artwork := artwork }, st3)

-- ---------------------------------------------------------------------------
-- Connection registry and GetTrack (remotedb.go lines 192-446)
-- ---------------------------------------------------------------------------

/-- deviceConnection (remotedb.go lines 71-80) restricted to the fields the
sequential query model observes: the device, the transaction counter, and
the socket when one is established (none while disconnected or still
connecting). -/
structure deviceConnection where
  device : Device
  txCount : Nat
  conn : Option Sock
deriving DecidableEq, Repr

/-- RemoteDB (remotedb.go lines 192-197): the local device identity and the
registry mapping device identifier to its connection. -/
structure RemoteDB where
  deviceID : Nat
  conns : List (Nat × deviceConnection)
deriving DecidableEq, Repr

/-- Lookup in the registry association list. -/
def lookupConn : List (Nat × deviceConnection) → Nat → Option deviceConnection
  | [], _ => none
  | (k, dc) :: rest, i => if k = i then some dc else lookupConn rest i

/-- Go map assignment on the registry: replace the binding for the key, or
append a new one. -/
def setConn : List (Nat × deviceConnection) → Nat → deviceConnection →
    List (Nat × deviceConnection)
  | [], i, dc => [(i, dc)]
  | (k, old) :: rest, i, dc =>
      if k = i then (k, dc) :: rest else (k, old) :: setConn rest i dc

/-- Go map delete on the registry. -/
def removeConn : List (Nat × deviceConnection) → Nat → List (Nat × deviceConnection)
  | [], _ => []
  | (k, dc) :: rest, i =>
      if k = i then removeConn rest i else (k, dc) :: removeConn rest i

/-- IsLinked (remotedb.go lines 200-204): a connection is tracked for the
device and its socket is established. -/
def IsLinked (rd : RemoteDB) (devID : Nat) : Bool :=
  match lookupConn rd.conns devID with
  | none => false
  | some dc => dc.conn.isSome

/-- openConnection (remotedb.go lines 407-426): ignore devices that are not
database-server capable; otherwise register a fresh connection with
transaction counter 1 and no socket yet (Open starts the connect attempt
in the background, so right after the call no socket is established). -/
def openConnection (rd : RemoteDB) (dev : Device) : RemoteDB :=
  if allowedDevices.contains dev.devType then
    { rd with
        conns := setConn rd.conns dev.ID
          { device := dev, txCount := 1, conn := none } }
  else rd

/-- closeConnection (remotedb.go lines 429-440): a no-op for an untracked
device; otherwise close the connection and drop it from the registry. -/
def closeConnection (rd : RemoteDB) (dev : Device) : RemoteDB :=
  match lookupConn rd.conns dev.ID with
  | none => rd
  | some _ => { rd with conns := removeConn rd.conns dev.ID }

/-- refreshConnection (remotedb.go lines 443-446). -/
def refreshConnection (rd : RemoteDB) (dev : Device) : RemoteDB :=
  openConnection (closeConnection rd dev) dev

inductive GetTrackErr
  | notLinked
  | cdUnsupported
  | net (e : NetErr)
deriving DecidableEq, Repr

inductive GetTrackResult
  | ok (t : Track)
  | fail (e : GetTrackErr)
  | panicked
deriving DecidableEq, Repr

/-- GetTrack (remotedb.go lines 207-224). The first two match arms realize
the IsLinked guard (no tracked connection, or no established socket):
return the not-linked error with the registry untouched. A CD slot returns
the unsupported error, again untouched. Otherwise run executeQuery on the
connection of the device, write its updated counter and socket back, and
when the result is exactly the end-of-stream error, refresh the connection
of that device as a side effect while still returning the error. -/
def GetTrack (rd : RemoteDB) (q : TrackQuery) : GetTrackResult × RemoteDB :=
  match lookupConn rd.conns q.DeviceID with
  | none => (GetTrackResult.fail GetTrackErr.notLinked, rd)
  | some dc =>
      match dc.conn with
      | none => (GetTrackResult.fail GetTrackErr.notLinked, rd)
      | some sock =>
          if q.Slot = TrackSlotCD then
            (GetTrackResult.fail GetTrackErr.cdUnsupported, rd)
          else
            match executeQuery rd.deviceID { txCount := dc.txCount, sock := sock } q with
            | (res, st1) =>
                let dc1 := { dc with txCount := st1.txCount, conn := some st1.sock }
                let rd1 := { rd with conns := setConn rd.conns q.DeviceID dc1 }
                match res with
                | QueryResult.fail NetErr.eof =>
                    (GetTrackResult.fail (GetTrackErr.net NetErr.eof),
                      refreshConnection rd1 dc1.device)
                | QueryResult.fail e => (GetTrackResult.fail (GetTrackErr.net e), rd1)
                | QueryResult.panicked => (GetTrackResult.panicked, rd1)
                | QueryResult.ok t => (GetTrackResult.ok t, rd1)

-- ---------------------------------------------------------------------------
-- Shared example states used by witnesses and counterexamples
-- ---------------------------------------------------------------------------

/-- A connected socket with nothing scripted: every write succeeds, the
first read hits end-of-stream. -/
def sockEmpty : Sock := { incoming := [], writeScript := [], sent := [] }

/-- An example CDJ device with identifier 2. -/
def devCDJ2 : Device := { ID := 2, devType := DeviceType.cdj, IP := "10.0.0.2" }

/-- A registry in which device 2 is linked over sockEmpty. -/
def rdLinked : RemoteDB :=
  { deviceID := 1
    conns := [(2, { device := devCDJ2, txCount := 1, conn := some sockEmpty })] }

-- ---------------------------------------------------------------------------
-- Theorems
-- ---------------------------------------------------------------------------

/-- C9: the port resolver dials the fixed well-known port, writes exactly
the packet made of the 4-byte big-endian value 15, the ASCII bytes of
RemoteDBServer and a zero byte, succeeds exactly when dial, write and read
all succeed, and on success returns address:port with the two bytes read
decoded as a big-endian unsigned 16-bit port. -/
theorem getRemoteDBServerAddr_spec (ip : String) (s : ResolverScript) :
    (getRemoteDBServerAddr ip s).dialedAddr = ip ++ ":" ++ toString rbDBServerQueryPort ∧
    (s.dialOk = true →
      (getRemoteDBServerAddr ip s).wrote =
        bigEndian4 15 ++ asciiBytes "RemoteDBServer" ++ [0]) ∧
    ((getRemoteDBServerAddr ip s).result.isSome ↔
      s.dialOk = true ∧ s.writeOk = true ∧ s.readBytes.isSome) ∧
    (∀ b0 b1 : Nat, s.dialOk = true → s.writeOk = true → s.readBytes = some (b0, b1) →
      (getRemoteDBServerAddr ip s).result =
        some (ip ++ ":" ++ toString (bigEndianUint16 b0 b1))) := by
  have hpkt : queryPacket = bigEndian4 15 ++ asciiBytes "RemoteDBServer" ++ [0] := by
    decide
  obtain ⟨d, w, r⟩ := s
  cases d <;> cases w <;> cases r <;>
    simp_all [getRemoteDBServerAddr, hpkt]

/-- Witness for C9 at a concrete input: an all-successful script with read
bytes 48 and 57 resolves to port 12345. -/
theorem getRemoteDBServerAddr_spec_witness :
    (getRemoteDBServerAddr "10.0.0.1"
        { dialOk := true, writeOk := true, readBytes := some (48, 57) }).result =
      some ("10.0.0.1" ++ ":" ++ toString (bigEndianUint16 48 57)) :=
  (getRemoteDBServerAddr_spec "10.0.0.1"
      { dialOk := true, writeOk := true, readBytes := some (48, 57) }).2.2.2
    48 57 rfl rfl rfl

/-- C5 (the code violates the claim): the first Close on a connection whose
disconnect channel exists succeeds and clears the socket, but a second
Close sends on the now-closed channel and panics, because Close never
clears the channel field — double Close is not idempotent. -/
theorem dcClose_second_call_panics :
    (dcClose dcAfterOpen).1 = CloseOutcome.ok ∧
    (dcClose dcAfterOpen).2.connOpen = false ∧
    (dcClose (dcClose dcAfterOpen).2).1 = CloseOutcome.panicked := by
  decide

/-- C3: when the target device is not linked (no tracked connection, or no
established socket), GetTrack returns the not-linked error and the
registry — including every socket script and sent log — is returned
untouched, so no network I/O happens. -/
theorem getTrack_notLinked (rd : RemoteDB) (q : TrackQuery)
    (h : IsLinked rd q.DeviceID = false) :
    GetTrack rd q = (GetTrackResult.fail GetTrackErr.notLinked, rd) := by
  unfold IsLinked at h
  unfold GetTrack
  cases hlk : lookupConn rd.conns q.DeviceID with
  | none => simp
  | some dc =>
      rw [hlk] at h
      cases hc : dc.conn with
      | none => simp [hc]
      | some sock => simp [hc] at h

/-- Witness for C3: a registry with no tracked connections. -/
theorem getTrack_notLinked_witness :
    GetTrack { deviceID := 1, conns := [] }
        { TrackID := 5, Slot := TrackSlot.usb, DeviceID := 2 } =
      (GetTrackResult.fail GetTrackErr.notLinked, { deviceID := 1, conns := [] }) :=
  getTrack_notLinked { deviceID := 1, conns := [] }
    { TrackID := 5, Slot := TrackSlot.usb, DeviceID := 2 } rfl

/-- Counterexample to C2 as stated: a CD-slot query against an unlinked
device returns the not-linked error, not the unsupported error — the link
check runs before the slot check, so the unsupported error is not returned
regardless of link state. -/
theorem getTrack_cd_unlinked_cex :
    (GetTrack { deviceID := 1, conns := [] }
        { TrackID := 5, Slot := TrackSlotCD, DeviceID := 2 }).1 =
      GetTrackResult.fail GetTrackErr.notLinked ∧
    GetTrackResult.fail GetTrackErr.notLinked ≠
      GetTrackResult.fail GetTrackErr.cdUnsupported := by
  decide

/-- C2 amended: for a linked device, a CD-slot query returns the
unsupported error with the registry untouched, so no network I/O
happens. -/
theorem getTrack_cd_linked_unsupported (rd : RemoteDB) (q : TrackQuery)
    (hl : IsLinked rd q.DeviceID = true) (hs : q.Slot = TrackSlotCD) :
    GetTrack rd q = (GetTrackResult.fail GetTrackErr.cdUnsupported, rd) := by
  unfold IsLinked at hl
  unfold GetTrack
  cases hlk : lookupConn rd.conns q.DeviceID with
  | none => rw [hlk] at hl; simp at hl
  | some dc =>
      rw [hlk] at hl
      cases hc : dc.conn with
      | none => simp [hc] at hl
      | some sock => simp [hc, hs]

/-- Witness for the amended C2: a linked device queried on the CD slot. -/
theorem getTrack_cd_linked_unsupported_witness :
    GetTrack rdLinked { TrackID := 5, Slot := TrackSlotCD, DeviceID := 2 } =
      (GetTrackResult.fail GetTrackErr.cdUnsupported, rdLinked) :=
  getTrack_cd_linked_unsupported rdLinked
    { TrackID := 5, Slot := TrackSlotCD, DeviceID := 2 } rfl rfl

-- ---------------------------------------------------------------------------
-- Render phase characterization (C6, C7)
-- ---------------------------------------------------------------------------

/-- One step of the render loop viewed as a fold over the streamed message
list: skip a message whose type is not menu item, otherwise file the
decoded item under its tag. -/
def renderStep (acc : menuItems) (m : Message) : menuItems :=
  if m.messageType ≠ msgTypeMenuItem then acc
  else menuInsert acc (makeMenuItem m).itemType (makeMenuItem m)

/-- The mapping the render phase builds from a list of streamed messages. -/
def renderFold (msgs : List Message) : menuItems := msgs.foldl renderStep []

/-- A streamed message that is a menu item carrying the given tag. -/
def menuTagPred (k : Nat) (m : Message) : Bool :=
  m.messageType == msgTypeMenuItem && (makeMenuItem m).itemType == k

/-- The render loop over a fully scripted stream equals the fold over the
message list, consuming exactly as many reads as its count argument. -/
theorem menuReadLoop_script (msgs : List Message) :
    ∀ (st : QState) (rest : List ReadResult) (acc : menuItems),
      st.sock.incoming = msgs.map ReadResult.ok ++ rest →
      menuReadLoop st msgs.length acc =
        (MenuResult.ok (msgs.foldl renderStep acc),
          { st with sock := { st.sock with incoming := rest } }) := by
  induction msgs with
  | nil =>
      intro st rest acc h
      obtain ⟨tx, ⟨inc, ws, snt⟩⟩ := st
      simp at h
      subst h
      simp [menuReadLoop]
  | cons m ms ih =>
      intro st rest acc h
      obtain ⟨tx, ⟨inc, ws, snt⟩⟩ := st
      simp at h
      subst h
      by_cases hm : m.messageType = msgTypeMenuItem
      · simp [menuReadLoop, readMessagePacket, hm, renderStep]
        exact ih _ rest _ rfl
      · simp [menuReadLoop, readMessagePacket, hm, renderStep]
        exact ih _ rest _ rfl

/-- Inserting under a different tag does not change a lookup. -/
theorem menuFind_insert_ne (acc : menuItems) (k t : Nat) (v : menuItem)
    (h : t ≠ k) : menuFind (menuInsert acc t v) k = menuFind acc k := by
  simp [menuFind, menuInsert, List.reverse_append, List.find?_cons, h]

/-- Inserting under a tag makes that binding the one a lookup returns. -/
theorem menuFind_insert_self (acc : menuItems) (k : Nat) (v : menuItem) :
    menuFind (menuInsert acc k v) k = some v := by
  simp [menuFind, menuInsert, List.reverse_append, List.find?_cons]

/-- Lookup into the fold: the binding under a tag is the latest menu-item
message with that tag, falling back to the accumulator when none
exists. -/
theorem menuFind_foldl_renderStep (k : Nat) (msgs : List Message) :
    ∀ acc : menuItems,
      menuFind (List.foldl renderStep acc msgs) k =
        ((msgs.reverse.find? (menuTagPred k)).map makeMenuItem).or (menuFind acc k) := by
  induction msgs with
  | nil => intro acc; simp
  | cons m ms ih =>
      intro acc
      simp only [List.foldl_cons, List.reverse_cons, ih, List.find?_append]
      by_cases hm : m.messageType = msgTypeMenuItem
      · by_cases hk : (makeMenuItem m).itemType = k
        · have hp : List.find? (menuTagPred k) [m] = some m := by
            simp [List.find?_singleton, menuTagPred, hm, hk]
          have hstep : menuFind (renderStep acc m) k = some (makeMenuItem m) := by
            rw [renderStep, if_neg (by simp [hm]), ← hk]
            exact menuFind_insert_self acc (makeMenuItem m).itemType (makeMenuItem m)
          rw [hp, hstep]
          cases hms : List.find? (menuTagPred k) ms.reverse <;>
            simp [Option.or_assoc]
        · have hp : List.find? (menuTagPred k) [m] = none := by
            simp [List.find?_singleton, menuTagPred, hk]
          have hstep : menuFind (renderStep acc m) k = menuFind acc k := by
            rw [renderStep, if_neg (by simp [hm])]
            exact menuFind_insert_ne acc k (makeMenuItem m).itemType (makeMenuItem m) hk
          rw [hp, hstep]
          simp
      · have hp : List.find? (menuTagPred k) [m] = none := by
          simp [List.find?_singleton, menuTagPred, hm]
        have hstep : renderStep acc m = acc := by
          simp [renderStep, hm]
        rw [hp, hstep]
        simp

/-- C6: with the declared item count N in the setup response, the render
phase reads exactly N + 2 framed messages off the stream (the remainder is
untouched), both requests go out stamped with consecutive counter values,
and the resulting mapping holds, under each tag, the latest streamed
menu-item message with that tag — every other message type is skipped and
an earlier binding for a tag is overwritten by a later one. -/
theorem getMenuItems_render (st : QState) (p1 p2 : Packet) (resp : Message)
    (msgs : List Message) (rest : List ReadResult)
    (hw : st.sock.writeScript = [])
    (hin : st.sock.incoming = ReadResult.ok resp :: (msgs.map ReadResult.ok ++ rest))
    (hresp : resp.messageType = msgTypeResponse)
    (hlen : msgs.length = resp.declaredCount + 2) :
    getMenuItems st p1 p2 =
      (MenuResult.ok (renderFold msgs),
        { st with
            txCount := ((st.txCount + 1) % uint32Mod + 1) % uint32Mod
            sock := { st.sock with
                        incoming := rest
                        sent := st.sock.sent ++
                          [p1.setTransactionID st.txCount,
                            p2.setTransactionID ((st.txCount + 1) % uint32Mod)] } }) ∧
    (∀ k : Nat,
      menuFind (renderFold msgs) k =
        (msgs.reverse.find? (menuTagPred k)).map makeMenuItem) := by
  constructor
  · obtain ⟨tx, ⟨inc, ws, snt⟩⟩ := st
    simp at hw hin
    subst hw
    subst hin
    simp [getMenuItems, sendMessage, readMessagePacket, hresp, ← hlen]
    exact menuReadLoop_script msgs _ rest [] rfl
  · intro k
    rw [renderFold, menuFind_foldl_renderStep k msgs []]
    simp [menuFind]

/-- An example menu item under tag 4 holding artwork identifier 1. -/
def itemA : menuItem := { itemType := 4, numVal := 0, textVal := "a", artworkID := 1 }

/-- A second example menu item under the same tag 4. -/
def itemB : menuItem := { itemType := 4, numVal := 0, textVal := "b", artworkID := 2 }

/-- An example streamed header entry (a non-menu-item message type). -/
def msgHeader : Message := { messageType := 0x4001 }

/-- An example streamed footer entry (a non-menu-item message type). -/
def msgFooter : Message := { messageType := 0x4201 }

/-- Example menu-item messages carrying itemA and itemB. -/
def msgItemA : Message := { messageType := msgTypeMenuItem, item := itemA }

def msgItemB : Message := { messageType := msgTypeMenuItem, item := itemB }

/-- An example rendered stream: header, two colliding items, footer. -/
def msgsC6 : List Message := [msgHeader, msgItemA, msgItemB, msgFooter]

/-- An example setup response declaring two data entries. -/
def respC6 : Message := { messageType := msgTypeResponse, declaredCount := 2 }

/-- The connection state scripted with the C6 example stream. -/
def stC6 : QState :=
  { txCount := 1
    sock := { incoming := ReadResult.ok respC6 :: msgsC6.map ReadResult.ok
              writeScript := []
              sent := [] } }

/-- Example setup and render request packets. -/
def pSetup : Packet := { kind := PacketKind.metadataRequest }

def pRender : Packet := { kind := PacketKind.renderRequest }

/-- Witness for C6: on the concrete stream with declared count 2, four
entries are rendered — a non-item header, two menu items under the same
tag, a non-item footer — and the mapping keeps the later item. -/
theorem getMenuItems_render_witness :
    (getMenuItems stC6 pSetup pRender).1 = MenuResult.ok (renderFold msgsC6) ∧
    menuFind (renderFold msgsC6) 4 = some itemB := by
  have h := getMenuItems_render stC6 pSetup pRender respC6 msgsC6 [] rfl rfl rfl rfl
  refine ⟨?_, ?_⟩
  · rw [h.1]
  · rw [h.2 4]
    decide

/-- C7: when the single setup-phase response read is not of the response
message type, the menu query fails with the protocol error and the sent
log grows by the setup request alone — the render-phase request is never
sent. -/
theorem getMenuItems_badResponse (st : QState) (p1 p2 : Packet) (resp : Message)
    (rest : List ReadResult)
    (hw : st.sock.writeScript = [])
    (hin : st.sock.incoming = ReadResult.ok resp :: rest)
    (hresp : resp.messageType ≠ msgTypeResponse) :
    getMenuItems st p1 p2 =
      (MenuResult.fail NetErr.protocolError,
        { st with
            txCount := (st.txCount + 1) % uint32Mod
            sock := { st.sock with
                        incoming := rest
                        sent := st.sock.sent ++ [p1.setTransactionID st.txCount] } }) := by
  obtain ⟨tx, ⟨inc, ws, snt⟩⟩ := st
  simp at hw hin
  subst hw
  subst hin
  simp [getMenuItems, sendMessage, readMessagePacket, hresp]

/-- Witness for C7: a stream whose first message has a menu-item type
instead of the response type. -/
theorem getMenuItems_badResponse_witness :
    getMenuItems
        { txCount := 1
          sock := { incoming := [ReadResult.ok { messageType := msgTypeMenuItem }]
                    writeScript := []
                    sent := [] } }
        { kind := PacketKind.metadataRequest } { kind := PacketKind.renderRequest } =
      (MenuResult.fail NetErr.protocolError,
        { txCount := 2
          sock := { incoming := []
                    writeScript := []
                    sent := [Packet.setTransactionID { kind := PacketKind.metadataRequest } 1] } }) := by
  have h := getMenuItems_badResponse
    { txCount := 1
      sock := { incoming := [ReadResult.ok { messageType := msgTypeMenuItem }]
                writeScript := []
                sent := [] } }
    { kind := PacketKind.metadataRequest } { kind := PacketKind.renderRequest }
    { messageType := msgTypeMenuItem } [] rfl rfl (by decide)
  rw [h]
  rfl

-- ---------------------------------------------------------------------------
-- Missing title entry panics (C10)
-- ---------------------------------------------------------------------------

/-- C10: when the metadata menu query succeeds with a mapping holding no
entry under the title tag, queryTrackMetadata dereferences the missing map
entry — the Go map of pointers yields nil and the field access panics —
instead of returning an error, and the panic propagates through
executeQuery; totality of the lookup therefore requires a title menu item
in the rendered response. -/
theorem queryTrackMetadata_missing_title_panics (localID : Nat) (st st1 : QState)
    (q : TrackQuery) (items : menuItems)
    (h : getMenuItems st (metadataRequestPacket localID q) (renderDataPacket localID q) =
      (MenuResult.ok items, st1))
    (hmiss : menuFind items itemTypeTitle = none) :
    queryTrackMetadata localID st q = (QueryResult.panicked, st1, q) ∧
    executeQuery localID st q = (QueryResult.panicked, st1) := by
  have h1 : queryTrackMetadata localID st q = (QueryResult.panicked, st1, q) := by
    simp [queryTrackMetadata, h, hmiss]
  exact ⟨h1, by simp [executeQuery, h1]⟩

/-- An example query against device 2 for track 7 in the USB slot. -/
def qUSB7 : TrackQuery := { TrackID := 7, Slot := TrackSlot.usb, DeviceID := 2 }

/-- A setup response declaring zero data entries. -/
def respEmpty : Message := { messageType := msgTypeResponse, declaredCount := 0 }

/-- A connection state whose rendered metadata response holds no menu
items at all (header and footer only). -/
def stNoTitle : QState :=
  { txCount := 1
    sock := { incoming := [ReadResult.ok respEmpty, ReadResult.ok msgHeader,
                ReadResult.ok msgFooter]
              writeScript := []
              sent := [] } }

/-- The state after the metadata menu query of stNoTitle: both requests
sent, the stream fully consumed. -/
def stNoTitleAfter : QState :=
  { txCount := 3
    sock := { incoming := []
              writeScript := []
              sent := [(metadataRequestPacket 1 qUSB7).setTransactionID 1,
                (renderDataPacket 1 qUSB7).setTransactionID 2] } }

/-- Witness for C10: on the concrete stream with no title entry the
metadata step and the whole lookup end in the panic outcome. -/
theorem queryTrackMetadata_missing_title_panics_witness :
    queryTrackMetadata 1 stNoTitle qUSB7 = (QueryResult.panicked, stNoTitleAfter, qUSB7) ∧
    executeQuery 1 stNoTitle qUSB7 = (QueryResult.panicked, stNoTitleAfter) :=
  queryTrackMetadata_missing_title_panics 1 stNoTitle stNoTitleAfter qUSB7 []
    (by decide) (by decide)

-- ---------------------------------------------------------------------------
-- The artwork sub-query is unconditional (C1)
-- ---------------------------------------------------------------------------

/-- The sent log of the connection tracked for a device, empty when none is
tracked or no socket is established. -/
def sentLog (rd : RemoteDB) (devID : Nat) : List Packet :=
  match lookupConn rd.conns devID with
  | none => []
  | some dc =>
      match dc.conn with
      | none => []
      | some s => s.sent

/-- A title menu-item message whose artwork identifier is zero. -/
def titleMsg0 : Message :=
  { messageType := msgTypeMenuItem
    item := { itemType := itemTypeTitle, numVal := 0, textVal := "T", artworkID := 0 } }

/-- A path menu-item message. -/
def pathMsg : Message :=
  { messageType := msgTypeMenuItem
    item := { itemType := itemTypePath, numVal := 0, textVal := "/x", artworkID := 0 } }

/-- A setup response declaring one data entry. -/
def respOne : Message := { messageType := msgTypeResponse, declaredCount := 1 }

/-- An artwork response carrying two bytes of image data in its binary
argument. -/
def artResp : Message := { messageType := msgTypeResponse, binary := [9, 9] }

/-- A socket scripted for a full successful lookup: metadata exchange,
path exchange, artwork response. -/
def sockFull : Sock :=
  { incoming := [ReadResult.ok respOne, ReadResult.ok msgHeader, ReadResult.ok titleMsg0,
      ReadResult.ok msgFooter, ReadResult.ok respOne, ReadResult.ok msgHeader,
      ReadResult.ok pathMsg, ReadResult.ok msgFooter, ReadResult.ok artResp]
    writeScript := []
    sent := [] }

/-- A registry in which device 2 is linked over sockFull. -/
def rdFull : RemoteDB :=
  { deviceID := 1
    conns := [(2, { device := devCDJ2, txCount := 1, conn := some sockFull })] }

/-- The track the full scenario produces: artwork bytes attached although
the captured artwork identifier was zero. -/
def trackFull : Track := { ID := 7, Path := "/x", Title := "T", Artwork := [9, 9] }

/-- Counterexample to C1 as stated: in a lookup whose title entry carries
artwork identifier zero, the artwork request is still sent (it appears in
the sent log, carrying identifier zero) and the returned artwork field
holds the response bytes rather than staying empty — executeQuery never
tests the identifier. -/
theorem getTrack_zero_artworkID_still_queries :
    (GetTrack rdFull qUSB7).1 = GetTrackResult.ok trackFull ∧
    trackFull.Artwork = [9, 9] ∧
    titleMsg0.item.artworkID = 0 ∧
    (requestArtworkPacket 1 qUSB7).artworkID = 0 ∧
    (requestArtworkPacket 1 qUSB7).setTransactionID 5 ∈ sentLog (GetTrack rdFull qUSB7).2 2 := by
  decide

/-- C1 amended: whenever the metadata and path steps succeed, executeQuery
issues the artwork request unconditionally — whatever artwork identifier
the metadata step captured, zero included — and the request lands in the
sent log stamped with the current counter. -/
theorem executeQuery_artwork_unconditional (localID : Nat) (st st1 st2 : QState)
    (q q1 : TrackQuery) (t : Track) (p : String)
    (h1 : queryTrackMetadata localID st q = (QueryResult.ok t, st1, q1))
    (h2 : queryTrackPath localID st1 q1 = (QueryResult.ok p, st2))
    (hw : st2.sock.writeScript = []) :
    (requestArtworkPacket localID q1).setTransactionID st2.txCount ∈
      (executeQuery localID st q).2.sock.sent := by
  obtain ⟨tx2, ⟨inc2, ws2, snt2⟩⟩ := st2
  simp at hw
  subst hw
  simp [executeQuery, h1, h2, getArtwork, sendMessage, readMessagePacket]
  cases inc2 with
  | nil => simp
  | cons r rs => cases r <;> simp

/-- The state after the metadata step of the full scenario. -/
def stMetaFull : QState :=
  { txCount := 3
    sock := { incoming := [ReadResult.ok respOne, ReadResult.ok msgHeader,
        ReadResult.ok pathMsg, ReadResult.ok msgFooter, ReadResult.ok artResp]
              writeScript := []
              sent := [(metadataRequestPacket 1 qUSB7).setTransactionID 1,
                (renderDataPacket 1 qUSB7).setTransactionID 2] } }

/-- The state after the path step of the full scenario. -/
def stPathFull : QState :=
  { txCount := 5
    sock := { incoming := [ReadResult.ok artResp]
              writeScript := []
              sent := [(metadataRequestPacket 1 qUSB7).setTransactionID 1,
                (renderDataPacket 1 qUSB7).setTransactionID 2,
                (trackInfoRequestPacket 1 qUSB7).setTransactionID 3,
                (renderSystemPacket 1 qUSB7).setTransactionID 4] } }

/-- The sparse track the metadata step of the full scenario returns. -/
def trackMetaFull : Track := { ID := 7, Title := "T" }

/-- Witness for the amended C1 at the concrete full scenario, where the
captured artwork identifier is zero and the artwork request still goes
out stamped with counter value 5. -/
theorem executeQuery_artwork_unconditional_witness :
    (requestArtworkPacket 1 qUSB7).setTransactionID 5 ∈
      (executeQuery 1 { txCount := 1, sock := sockFull } qUSB7).2.sock.sent :=
  executeQuery_artwork_unconditional 1 { txCount := 1, sock := sockFull }
    stMetaFull stPathFull qUSB7 qUSB7 trackMetaFull "/x" (by decide) (by decide) rfl

-- ---------------------------------------------------------------------------
-- End-of-stream refresh (C4)
-- ---------------------------------------------------------------------------

/-- Assigning a binding makes it the one the registry lookup returns. -/
theorem lookupConn_setConn_self (l : List (Nat × deviceConnection)) (k : Nat)
    (dc : deviceConnection) : lookupConn (setConn l k dc) k = some dc := by
  induction l with
  | nil => simp [setConn, lookupConn]
  | cons p rest ih =>
      obtain ⟨pk, pdc⟩ := p
      by_cases h : pk = k <;> simp [setConn, lookupConn, h, ih]

/-- C4: when executeQuery on the connection of a linked device fails with
exactly the end-of-stream error, GetTrack still returns that error to the
caller — the single executeQuery result is what comes back, the failed
lookup is not retried — and as a side effect the connection of the device
is closed and reopened: afterwards the registry holds a fresh connection
for the device with counter 1 and no established socket (its retry loop
restarting in the background). -/
theorem getTrack_eof_refresh (rd : RemoteDB) (q : TrackQuery) (dc : deviceConnection)
    (sock : Sock) (st1 : QState)
    (hdc : lookupConn rd.conns q.DeviceID = some dc)
    (hsock : dc.conn = some sock)
    (hslot : q.Slot ≠ TrackSlotCD)
    (hdev : dc.device.ID = q.DeviceID)
    (htype : allowedDevices.contains dc.device.devType = true)
    (hexec : executeQuery rd.deviceID { txCount := dc.txCount, sock := sock } q =
      (QueryResult.fail NetErr.eof, st1)) :
    (GetTrack rd q).1 = GetTrackResult.fail (GetTrackErr.net NetErr.eof) ∧
    lookupConn (GetTrack rd q).2.conns q.DeviceID =
      some { device := dc.device, txCount := 1, conn := none } := by
  have hgt : GetTrack rd q =
      (GetTrackResult.fail (GetTrackErr.net NetErr.eof),
        refreshConnection
          { rd with
              conns := setConn rd.conns q.DeviceID
                         { dc with txCount := st1.txCount, conn := some st1.sock } }
          dc.device) := by
    unfold GetTrack
    rw [hdc]
    simp [hsock, hslot, hexec]
  rw [hgt]
  refine ⟨rfl, ?_⟩
  rw [← hdev]
  rw [refreshConnection, openConnection]
  rw [if_pos htype]
  rw [lookupConn_setConn_self]

/-- Witness for C4: device 2 linked over a socket whose stream is already
exhausted, so the first metadata read hits end-of-stream. -/
theorem getTrack_eof_refresh_witness :
    (GetTrack rdLinked qUSB7).1 = GetTrackResult.fail (GetTrackErr.net NetErr.eof) ∧
    lookupConn (GetTrack rdLinked qUSB7).2.conns qUSB7.DeviceID =
      some { device := devCDJ2, txCount := 1, conn := none } :=
  getTrack_eof_refresh rdLinked qUSB7
    { device := devCDJ2, txCount := 1, conn := some sockEmpty } sockEmpty
    { txCount := 2
      sock := { incoming := []
                writeScript := []
                sent := [(metadataRequestPacket 1 qUSB7).setTransactionID 1] } }
    (by decide) (by decide) (by decide) (by decide) (by decide) (by decide)

-- ---------------------------------------------------------------------------
-- Transaction counter (C8)
-- ---------------------------------------------------------------------------

/-- Iterated sends on a connection whose write script is exhausted, so
every write succeeds and each send increments the counter. -/
def sendIter (p : Packet) : QState → Nat → QState
  | st, 0 => st
  | st, n + 1 => sendIter p (sendMessage st p).2 n

/-- A successful send bumps the uint32 counter by one and leaves the write
script empty. -/
theorem sendMessage_txCount (st : QState) (p : Packet)
    (hw : st.sock.writeScript = []) :
    (sendMessage st p).2.txCount = (st.txCount + 1) % uint32Mod ∧
    (sendMessage st p).2.sock.writeScript = [] := by
  obtain ⟨tx, ⟨inc, ws, snt⟩⟩ := st
  simp at hw
  subst hw
  simp [sendMessage]

/-- The counter after n successful sends is the start value plus n, modulo
2 to the 32. -/
theorem sendIter_txCount (p : Packet) :
    ∀ (n : Nat) (st : QState), st.sock.writeScript = [] → st.txCount < uint32Mod →
      (sendIter p st n).txCount = (st.txCount + n) % uint32Mod := by
  intro n
  induction n with
  | zero =>
      intro st hw hlt
      simp [sendIter, Nat.mod_eq_of_lt hlt]
  | succ n ih =>
      intro st hw hlt
      rw [sendIter]
      have h := sendMessage_txCount st p hw
      have hlt1 : (sendMessage st p).2.txCount < uint32Mod := by
        rw [h.1]
        exact Nat.mod_lt _ (by norm_num [uint32Mod])
      rw [ih _ h.2 hlt1, h.1, Nat.mod_add_mod]
      exact congrArg (fun x => x % uint32Mod) (by omega)

/-- The fresh query state of a connection as openConnection creates it:
counter 1, nothing scripted. -/
def freshQ : QState := { txCount := 1, sock := sockEmpty }

/-- Counterexample to C8 as stated: the value stamped on the next message
after 2 to the 32 successful sends equals the value stamped on the very
first message (both are 1) — the uint32 counter wraps, so within one
connection lifetime counter values are eventually reused. -/
theorem sendIter_txCount_wraps :
    (sendIter pSetup freshQ 0).txCount = 1 ∧
    (sendIter pSetup freshQ 4294967296).txCount = 1 := by
  refine ⟨rfl, ?_⟩
  rw [sendIter_txCount pSetup 4294967296 freshQ rfl (by norm_num [freshQ, uint32Mod])]
  norm_num [freshQ, uint32Mod]

/-- C8 amended: within one connection lifetime the counter starts at 1
(openConnection registers the connection with counter 1), each successful
send increments it by exactly one modulo 2 to the 32, and the stamped
values are strictly increasing — hence never reused — as long as the
number of messages sent stays below 2 to the 32 minus 1. -/
theorem txCounter_starts_increments_monotone (p : Packet) (rd : RemoteDB) (dev : Device)
    (n m : Nat)
    (htype : allowedDevices.contains dev.devType = true)
    (hnm : n < m) (hm : m ≤ uint32Mod - 2) :
    lookupConn (openConnection rd dev).conns dev.ID =
      some { device := dev, txCount := 1, conn := none } ∧
    (sendIter p freshQ (n + 1)).txCount =
      ((sendIter p freshQ n).txCount + 1) % uint32Mod ∧
    (sendIter p freshQ n).txCount < (sendIter p freshQ m).txCount := by
  have hM : (0 : Nat) < uint32Mod := by norm_num [uint32Mod]
  have hiter : ∀ k : Nat, (sendIter p freshQ k).txCount = (1 + k) % uint32Mod := by
    intro k
    exact sendIter_txCount p k freshQ rfl (by norm_num [freshQ, uint32Mod])
  refine ⟨?_, ?_, ?_⟩
  · rw [openConnection, if_pos htype, lookupConn_setConn_self]
  · rw [hiter n, hiter (n + 1), Nat.mod_add_mod]
    exact congrArg (fun x => x % uint32Mod) (by omega)
  · rw [hiter n, hiter m]
    have hmlt : 1 + m < uint32Mod := by
      have : uint32Mod - 2 + 1 < uint32Mod := by norm_num [uint32Mod]
      omega
    rw [Nat.mod_eq_of_lt (by omega), Nat.mod_eq_of_lt hmlt]
    omega

/-- Witness for the amended C8 at concrete inputs: registering a CDJ
starts its counter at 1, the second send stamps 2 right after the first
stamps 1, and the counter after zero sends is below the counter after one
send. -/
theorem txCounter_starts_increments_monotone_witness :
    lookupConn (openConnection { deviceID := 1, conns := [] } devCDJ2).conns devCDJ2.ID =
      some { device := devCDJ2, txCount := 1, conn := none } ∧
    (sendIter pSetup freshQ (0 + 1)).txCount =
      ((sendIter pSetup freshQ 0).txCount + 1) % uint32Mod ∧
    (sendIter pSetup freshQ 0).txCount < (sendIter pSetup freshQ 1).txCount :=
  txCounter_starts_increments_monotone pSetup { deviceID := 1, conns := [] } devCDJ2
    0 1 (by decide) (by decide) (by norm_num [uint32Mod])

end Prolink
